import Mathlib

/-!
Verification of the Brainrot esolang interpreter (src/main.py).

The interpreter state is embedded as a structure mirroring the fields set in
Interpreter.__init__.  The external world (file system contents as already
tokenized programs, standard input as a stream of already parsed integer
results, standard output as a list of printed lines) is made explicit so that
the I/O instructions (load, spill, skibidi, help, version) become pure.
BrainrotError exceptions are modelled with Except String carrying the message.
-/

namespace Brainrot

def VERSION : String := "1.0.0"

/-- Machine state of Interpreter, plus the explicit external environment.
The first six fields are exactly the attributes set in Interpreter.__init__:
acc, pc, lines, loop_stack, stack, vars.  Python lists used as stacks push
with append and pop from the end, so loop_stack and stack keep that
orientation: push appends on the right, the top of the stack is the last
element. -/
@[ext] structure State where
  acc : Int
  pc : Nat
  lines : List (Nat × List String)
  loop_stack : List Nat
  stack : List Int
  vars : String → Option Int
  stdin : Nat → Option Int
  inIdx : Nat
  fs : String → Option (List (Nat × List String))
  output : List String

/-- Fresh interpreter as built by Interpreter.__init__, over an empty
environment (no files, no parsable input, no output yet). -/
def initInterp : State :=
  { acc := 0, pc := 0, lines := [], loop_stack := [], stack := [],
    vars := fun _ => none, stdin := fun _ => none, inIdx := 0,
    fs := fun _ => none, output := [] }

/-- The help text printed by Interpreter.print_help, one list entry per
print call. -/
def helpLines : List String :=
  ["Brainrot commands:",
   "- rizz       : +1",
   "- gyatt      : -1",
   "- drip       : +5",
   "- npc        : -5",
   "- lit        : +10",
   "- slaps      : -10",
   "- yeet       : *2",
   "- cringe     : //2",
   "- flex       : square",
   "- fam        : push acc",
   "- clapback   : pop to acc",
   "- set <v>    : var=v",
   "- get <v>    : load var",
   "- spill      : input number",
   "- skibidi    : print acc",
   "- no cap     : acc=0",
   "- sus        : skip if acc==0",
   "- suspect    : skip if acc>0",
   "- vibe ...   : loop while acc>0",
   "- unvibe     : end loop",
   "- load <f>   : include file",
   "- help       : this list",
   "- version    : show version"]

/-- The body of the while loop in the vibe handler of Interpreter.execute:
while depth and pc < len(lines) - 1: pc += 1; look at lines[pc][1][0].
The while condition pc < len(lines) - 1 bounds the remaining iterations by
len(lines) - 1 - pc, which is passed as the structural fuel argument so that
the function is the exact loop: fuel = 0 iff the bound check fails. -/
def scanGo (lines : List (Nat × List String)) : Nat → Nat → Nat → Nat × Nat
  | 0, depth, pc => (depth, pc)
  | b + 1, depth, pc =>
    if depth = 0 then (depth, pc)
    else
      let tok := (lines[pc + 1]?).map (fun ln => ln.2.headD "")
      scanGo lines b
        (if tok = some "vibe" then depth + 1
         else if tok = some "unvibe" then depth - 1 else depth)
        (pc + 1)

/-- The depth counted forward scan of the vibe handler, started with
depth = 1 at the current pc.  Returns the final (depth, pc) pair. -/
def vibeScan (lines : List (Nat × List String)) (pc : Nat) : Nat × Nat :=
  scanGo lines (lines.length - 1 - pc) 1 pc

/-- Interpreter.execute(cmd, args): one arm per branch of the if/elif chain,
in source order.  The compound form is the single pattern for cmd == no with
args == [cap]; every other argument list for no falls through to the final
unknown command error, as in the source.  A raised BrainrotError is an
Except.error carrying the message. -/
def execute (s : State) (cmd : String) (args : List String) : Except String State :=
  match cmd, args with
  | "rizz", _ => .ok { s with acc := s.acc + 1 }
  | "gyatt", _ => .ok { s with acc := s.acc - 1 }
  | "drip", _ => .ok { s with acc := s.acc + 5 }
  | "npc", _ => .ok { s with acc := s.acc - 5 }
  | "lit", _ => .ok { s with acc := s.acc + 10 }
  | "slaps", _ => .ok { s with acc := s.acc - 10 }
  | "yeet", _ => .ok { s with acc := s.acc * 2 }
  | "flex", _ => .ok { s with acc := s.acc * s.acc }
  | "cringe", _ =>
    -- Python // is floor division, Int.fdiv
    .ok (if s.acc ≠ 0 then { s with acc := Int.fdiv s.acc 2 } else s)
  | "fam", _ => .ok { s with stack := s.stack ++ [s.acc] }
  | "clapback", _ =>
    match s.stack.getLast? with
    | none => .error "Stack is empty"
    | some v => .ok { s with acc := v, stack := s.stack.dropLast }
  | "set", [x] =>
    .ok { s with vars := fun n => if n = x then some s.acc else s.vars n }
  | "set", _ => .error "Usage: set <varname>"
  | "get", [x] =>
    match s.vars x with
    | none => .error ("Unknown variable \x27" ++ x ++ "\x27")
    | some v => .ok { s with acc := v }
  | "get", _ => .error "Usage: get <varname>"
  | "spill", _ =>
    match s.stdin s.inIdx with
    | none => .error "Invalid integer input"
    | some v => .ok { s with acc := v, inIdx := s.inIdx + 1 }
  | "skibidi", _ => .ok { s with output := s.output ++ [toString s.acc] }
  | "no", ["cap"] => .ok { s with acc := 0 }
  | "sus", _ => .ok (if s.acc = 0 then { s with pc := s.pc + 2 } else s)
  | "suspect", _ => .ok (if s.acc > 0 then { s with pc := s.pc + 2 } else s)
  | "vibe", _ =>
    if s.acc > 0 then .ok { s with loop_stack := s.loop_stack ++ [s.pc] }
    else
      let r := vibeScan s.lines s.pc
      if r.1 ≠ 0 then .error "Unmatched \x27vibe\x27"
      else .ok { s with pc := r.2 }
  | "unvibe", _ =>
    match s.loop_stack.getLast? with
    | none => .error "Unmatched \x27unvibe\x27"
    | some start =>
      if s.acc > 0 then .ok { s with pc := start + 1 }
      else .ok { s with loop_stack := s.loop_stack.dropLast }
  | "load", [fname] =>
    match s.fs fname with
    | none => .error ("File not found: " ++ fname)
    | some prog =>
      -- prev_lines/prev_pc are saved, self.load replaces lines, then both
      -- are restored; note that the loaded program is never run
      .ok { { s with lines := prog } with lines := s.lines, pc := s.pc }
  | "load", _ => .error "Usage: load <filename>"
  | "help", _ => .ok { s with output := s.output ++ helpLines }
  | "version", _ => .ok { s with output := s.output ++ ["Brainrot version " ++ VERSION] }
  | "mid", _ => .ok s
  | _, _ => .error ("Unknown command \x27" ++ cmd ++ "\x27")

/-- Interpreter.run: while pc < len(lines), fetch lines[pc], execute, and
auto-advance pc by one only when execute left pc unchanged.  A BrainrotError
aborts the run with the message prefixed by the offending line number.  The
structural fuel argument only distinguishes nontermination (none); any run
that finishes within the fuel returns the same result for all larger fuels. -/
def run : Nat → State → Option (Except String State)
  | 0, _ => none
  | f + 1, s =>
    match s.lines[s.pc]? with
    | none => some (.ok s)
    | some (ln, tokens) =>
      match execute s (tokens.headD "") tokens.tail with
      | .error e => some (.error ("Error at line " ++ toString ln ++ ": " ++ e))
      | .ok t => run f (if t.pc = s.pc then { t with pc := t.pc + 1 } else t)

/-- Interpreter.run instrumented with the list of pc values fetched, in
execution order, so that the number of executions of an instruction can be
stated.  Identical to run except for the trace component. -/
def runTrace : Nat → State → Option (Except String (State × List Nat))
  | 0, _ => none
  | f + 1, s =>
    match s.lines[s.pc]? with
    | none => some (.ok (s, []))
    | some (ln, tokens) =>
      match execute s (tokens.headD "") tokens.tail with
      | .error e => some (.error ("Error at line " ++ toString ln ++ ": " ++ e))
      | .ok t =>
        (runTrace f (if t.pc = s.pc then { t with pc := t.pc + 1 } else t)).map
          (fun r => r.map (fun p => (p.1, s.pc :: p.2)))

/-! Concrete programs, environments and helper notions used by the claims. -/

/-- A matched loop that is skipped: vibe with accumulator 0 and its matching
unvibe right after it. -/
def c1S : State := { initInterp with lines := [(1, ["vibe"]), (2, ["unvibe"])] }

/-- File system holding one include file inc.br whose program is a single
print instruction. -/
def c2fs : String → Option (List (Nat × List String)) :=
  fun nm => if nm = "inc.br" then some [(1, ["skibidi"])] else none

/-- A program consisting of a single include of inc.br. -/
def c2S : State :=
  { initInterp with
    lines := [(1, ["load", "inc.br"])],
    fs := c2fs }

/-- An entered outer loop whose body skips an inner loop: rizz makes the
accumulator 1, the outer vibe is entered, gyatt brings the accumulator to 0,
so the inner vibe is skipped; both loops are syntactically matched. -/
def c3S : State :=
  { initInterp with lines :=
    [(1, ["rizz"]), (2, ["vibe"]), (3, ["gyatt"]),
     (4, ["vibe"]), (5, ["unvibe"]), (6, ["unvibe"])] }

/-- The concrete scenario of the spec: lit, vibe, gyatt, unvibe, skibidi. -/
def c6S : State :=
  { initInterp with lines :=
    [(1, ["lit"]), (2, ["vibe"]), (3, ["gyatt"]), (4, ["unvibe"]), (5, ["skibidi"])] }

/-- A two instruction program whose first instruction is the conditional
skip: with accumulator 0 the skip jumps past the end of the program. -/
def c7S : State := { initInterp with lines := [(1, ["sus"]), (2, ["rizz"])] }

/-- Accumulator 2, empty auxiliary stack: input for the flex counterexample. -/
def flexS : State := { initInterp with acc := 2 }

/-- What claim C5 asserts of the peek instruction: on a one element stack it
returns the top in the accumulator leaving the stack unchanged, and on an
empty stack it raises the Stack-Empty error. -/
def peekBehavior (cmd : String) (args : List String) : Prop :=
  (∀ (v : Int) (s : State), s.stack = [v] →
    ∃ t, execute s cmd args = .ok t ∧ t.acc = v ∧ t.stack = [v]) ∧
  (∀ s : State, s.stack = [] → execute s cmd args = .error "Stack is empty")

/-- Push each value of the list in turn: set the accumulator to the value and
execute the push instruction fam.  fam never fails, the error arm is dead. -/
def pushAll (s : State) : List Int → State
  | [] => s
  | v :: vs =>
    match execute { s with acc := v } "fam" [] with
    | .ok u => pushAll u vs
    | .error _ => s

/-- Execute the pop instruction clapback n times, collecting the accumulator
values it produces, in order; stops at the first error. -/
def popList : Nat → State → Except String (State × List Int)
  | 0, s => .ok (s, [])
  | n + 1, s =>
    match execute s "clapback" [] with
    | .error e => .error e
    | .ok t => (popList n t).map (fun p => (p.1, t.acc :: p.2))

/-- The canonical counting loop: vibe, gyatt, unvibe. -/
def loopProg : List (Nat × List String) := [(1, ["vibe"]), (2, ["gyatt"]), (3, ["unvibe"])]

/-- About to execute the vibe of loopProg with accumulator k. -/
def loopEntry (k : Nat) : State := { initInterp with lines := loopProg, acc := (k : Int) }

/-- Inside the body of the entered loop of loopProg (pc on the gyatt, the
vibe index 0 pushed on the loop stack) with accumulator a. -/
def loopInner (a : Int) : State :=
  { initInterp with lines := loopProg, acc := a, pc := 1, loop_stack := [0] }

/-- Terminated state of loopProg: accumulator 0, pc past the end, empty
loop stack. -/
def loopDone : State := { initInterp with lines := loopProg, acc := 0, pc := 3 }

/-! Step equations for the fetch loop. -/

lemma run_done (f : Nat) (s : State) (h : s.lines[s.pc]? = none) :
    run (f + 1) s = some (.ok s) := by
  simp only [run, h]

lemma run_step_adv (f : Nat) (s t : State) (ln : Nat) (cmd : String) (args : List String)
    (hline : s.lines[s.pc]? = some (ln, cmd :: args))
    (hex : execute s cmd args = .ok t) (hpc : t.pc = s.pc) :
    run (f + 1) s = run f { t with pc := s.pc + 1 } := by
  simp only [run, hline, List.headD_cons, List.tail_cons, hex, hpc, if_pos]

lemma run_step_moved (f : Nat) (s t : State) (ln : Nat) (cmd : String) (args : List String)
    (hline : s.lines[s.pc]? = some (ln, cmd :: args))
    (hex : execute s cmd args = .ok t) (hpc : t.pc ≠ s.pc) :
    run (f + 1) s = run f t := by
  simp only [run, hline, List.headD_cons, List.tail_cons, hex]
  rw [if_neg hpc]

lemma runTrace_done (f : Nat) (s : State) (h : s.lines[s.pc]? = none) :
    runTrace (f + 1) s = some (.ok (s, [])) := by
  simp only [runTrace, h]

lemma runTrace_step_adv (f : Nat) (s t : State) (ln : Nat) (cmd : String) (args : List String)
    (hline : s.lines[s.pc]? = some (ln, cmd :: args))
    (hex : execute s cmd args = .ok t) (hpc : t.pc = s.pc) :
    runTrace (f + 1) s =
      (runTrace f { t with pc := s.pc + 1 }).map
        (fun r => r.map (fun p => (p.1, s.pc :: p.2))) := by
  simp only [runTrace, hline, List.headD_cons, List.tail_cons, hex, hpc, if_pos]

lemma runTrace_step_moved (f : Nat) (s t : State) (ln : Nat) (cmd : String) (args : List String)
    (hline : s.lines[s.pc]? = some (ln, cmd :: args))
    (hex : execute s cmd args = .ok t) (hpc : t.pc ≠ s.pc) :
    runTrace (f + 1) s =
      (runTrace f t).map (fun r => r.map (fun p => (p.1, s.pc :: p.2))) := by
  simp only [runTrace, hline, List.headD_cons, List.tail_cons, hex]
  rw [if_neg hpc]

/-- Any mnemonic outside the dispatch table falls to the final unknown
command error, whatever the arguments. -/
lemma execute_unknown (s : State) (cmd : String) (args : List String)
    (h01 : cmd ≠ "rizz") (h02 : cmd ≠ "gyatt") (h03 : cmd ≠ "drip") (h04 : cmd ≠ "npc")
    (h05 : cmd ≠ "lit") (h06 : cmd ≠ "slaps") (h07 : cmd ≠ "yeet") (h08 : cmd ≠ "flex")
    (h09 : cmd ≠ "cringe") (h10 : cmd ≠ "fam") (h11 : cmd ≠ "clapback") (h12 : cmd ≠ "set")
    (h13 : cmd ≠ "get") (h14 : cmd ≠ "spill") (h15 : cmd ≠ "skibidi") (h16 : cmd ≠ "no")
    (h17 : cmd ≠ "sus") (h18 : cmd ≠ "suspect") (h19 : cmd ≠ "vibe") (h20 : cmd ≠ "unvibe")
    (h21 : cmd ≠ "load") (h22 : cmd ≠ "help") (h23 : cmd ≠ "version") (h24 : cmd ≠ "mid") :
    execute s cmd args = .error ("Unknown command \x27" ++ cmd ++ "\x27") := by
  unfold execute
  split <;> simp_all

/-- Pushing a list of values appends it to the stack and leaves the last
pushed value (if any) in the accumulator. -/
lemma pushAll_spec : ∀ (vs : List Int) (s : State),
    pushAll s vs = { s with acc := vs.getLastD s.acc, stack := s.stack ++ vs }
  | [], s => by simp [pushAll]
  | v :: vs, s => by
    rw [show pushAll s (v :: vs) =
          pushAll { s with acc := v, stack := s.stack ++ [v] } vs from rfl,
        pushAll_spec vs _]
    ext
    · exact (List.getLastD_cons s.acc v vs).symm
    all_goals simp

/-- Popping exactly as many times as the stack holds returns the stack
content in reverse order and empties the stack. -/
lemma popList_spec (vs : List Int) : ∀ s : State, s.stack = vs →
    popList vs.length s =
      .ok ({ s with acc := vs.headD s.acc, stack := [] }, vs.reverse) := by
  induction vs using List.reverseRecOn with
  | nil =>
    intro s hs
    have he : { s with acc := s.acc, stack := ([] : List Int) } = s := by
      ext <;> simp [hs.symm]
    simp [popList, he]
  | append_singleton ws w ih =>
    intro s hs
    have hlen : (ws ++ [w]).length = ws.length + 1 := by simp
    rw [hlen]
    have hex : execute s "clapback" [] = .ok { s with acc := w, stack := ws } := by
      simp [execute, hs]
    rw [show popList (ws.length + 1) s =
          (match execute s "clapback" [] with
           | .error e => .error e
           | .ok t => (popList ws.length t).map (fun p => (p.1, t.acc :: p.2))) from rfl,
        hex]
    have iht := ih { s with acc := w, stack := ws } rfl
    simp only [iht, Except.map]
    cases ws <;> simp

/-- One full iteration of the entered loop of loopProg: from the body with
accumulator j at least 1, the run finishes in loopDone, having fetched the
body instruction (index 1) exactly j times. -/
lemma loop_iter : ∀ (j : Nat), 1 ≤ j → ∀ a : Int, a = (j : Int) →
    ∃ tr, runTrace (2 * j + 1) (loopInner a) = some (.ok (loopDone, tr)) ∧
      tr.count 1 = j := by
  intro j hj
  induction j, hj using Nat.le_induction with
  | base =>
    intro a ha; subst ha
    exact ⟨[1, 2], rfl, rfl⟩
  | succ j hj ih =>
    intro a ha
    have hpos : (0 : Int) < a - 1 := by omega
    have ha1 : a - 1 = (j : Int) := by omega
    obtain ⟨tr, htr, hcount⟩ := ih (a - 1) ha1
    have hstep1 := runTrace_step_adv (2 * j + 1 + 1) (loopInner a) (loopInner (a - 1))
      2 "gyatt" [] rfl rfl rfl
    have hexu : execute { loopInner (a - 1) with pc := (loopInner a).pc + 1 } "unvibe" [] =
        if a - 1 > 0 then .ok (loopInner (a - 1))
        else .ok { { loopInner (a - 1) with pc := (loopInner a).pc + 1 } with
          loop_stack := ([0] : List Nat).dropLast } := rfl
    rw [if_pos hpos] at hexu
    have hstep2 := runTrace_step_moved (2 * j + 1)
      { loopInner (a - 1) with pc := (loopInner a).pc + 1 } (loopInner (a - 1))
      3 "unvibe" [] rfl hexu (by simp [loopInner])
    refine ⟨1 :: 2 :: tr, ?_, ?_⟩
    · have h2j : 2 * (j + 1) + 1 = 2 * j + 1 + 1 + 1 := by ring
      rw [h2j, hstep1, hstep2, htr]
      rfl
    · simp [List.count_cons, hcount]

/-! The claims. -/

/-- Claim C1: when vibe executes with accumulator at most 0, the forward scan
sets pc to the index of the matching unvibe (first conjunct).  But the claim
that the normal pc increment rule then advances past that unvibe without
executing it fails on the code: run only auto-increments when execute left pc
unchanged, and the scan moved it, so the matched unvibe itself is executed
next and, with an empty loop stack, the run aborts with an Unmatched unvibe
error instead of terminating normally (second conjunct evaluates the code at
the failing input). -/
theorem C1_skipped_unvibe_executes :
    execute c1S "vibe" [] = .ok { c1S with pc := 1 } ∧
    run 10 c1S = some (.error "Error at line 2: Unmatched \x27unvibe\x27") :=
  ⟨rfl, rfl⟩

/-- Claim C2: the load handler saves lines and pc, loads the file, and
restores the saved lines and pc, but it never runs the loaded program: the
execute step on load is the identity on the state (second conjunct), and
running the one line program load inc.br, where inc.br is a print
instruction, produces no output at all, while the spec requires the included
program to run to completion and print. -/
theorem C2_include_never_runs :
    c2S.fs "inc.br" = some [(1, ["skibidi"])] ∧
    execute c2S "load" ["inc.br"] = .ok c2S ∧
    (run 10 c2S).map (Except.map State.output) = some (.ok ([] : List String)) :=
  ⟨rfl, rfl, rfl⟩

/-- Claim C3: the loop stack invariant fails on the code.  In c3S the outer
loop is entered (one loop stack entry) and is syntactically matched, and the
inner skipped loop is matched as well; yet the run aborts with an Unmatched
unvibe error at line 6, which is the outer loop exit: skipping the inner
loop lands pc on the inner unvibe, which executes and pops the entry of the
outer loop while the outer loop body is still executing. -/
theorem C3_loop_stack_violation :
    run 10 c3S = some (.error "Error at line 6: Unmatched \x27unvibe\x27") := rfl

/-- Claim C4 (amended): flex sets the accumulator to its own square and
leaves the rest of the state, in particular the auxiliary stack, unchanged,
for every machine state. -/
theorem C4_flex_squares_acc (s : State) :
    execute s "flex" [] = .ok { s with acc := s.acc * s.acc } := rfl

/-- Claim C4 as stated is false: with accumulator 2 and empty stack, the
claim predicts accumulator still 2 and stack [4]; the code yields
accumulator 4 and an empty stack. -/
theorem C4_flex_counterexample :
    (execute flexS "flex" []).map State.acc = .ok 4 ∧
    (execute flexS "flex" []).map State.stack = .ok [] ∧
    flexS.acc = 2 ∧ flexS.stack = [] :=
  ⟨rfl, rfl, rfl, rfl⟩

/-- Claim C5 as stated is false: no instruction of the interpreter behaves
as the claimed peek, that is, puts the top of the auxiliary stack into the
accumulator while leaving the stack unchanged and raises Stack-Empty on an
empty stack.  The only command raising Stack-Empty is clapback, and clapback
removes the top element. -/
theorem C5_no_peek_counterexample : (∃ cmd args, peekBehavior cmd args) = False := by
  rw [eq_iff_iff, iff_false]
  rintro ⟨cmd, args, h1, h2⟩
  have h2' := h2 initInterp rfl
  unfold execute at h2'
  split at h2'
  all_goals try exact Except.noConfusion h2'
  all_goals try (injection h2' with hs; exact absurd hs (of_decide_eq_false rfl))
  case h_11 =>
    obtain ⟨t, ht, hacc, hstack⟩ := h1 0 { initInterp with stack := [0] } rfl
    have hok : execute { initInterp with stack := [0] } "clapback" args =
        Except.ok { initInterp with acc := 0, stack := [] } := rfl
    rw [hok] at ht
    injection ht with ht
    rw [← ht] at hstack
    exact absurd hstack (of_decide_eq_false rfl)

/-- Claim C5 (amended): the pop instruction clapback sets the accumulator to
the top value of the auxiliary stack and removes that value from the stack;
on an empty stack it raises the Stack-Empty error.  There is no
non-destructive peek instruction. -/
theorem C5_clapback_pop (s : State) :
    (s.stack = [] → execute s "clapback" [] = .error "Stack is empty") ∧
    ∀ v, s.stack.getLast? = some v →
      execute s "clapback" [] = .ok { s with acc := v, stack := s.stack.dropLast } := by
  constructor
  · intro h; simp [execute, h]
  · intro v hv; simp [execute, hv]

/-- Witness for C5: clapback on the empty stack errors, and clapback on the
one element stack [5] pops the 5 into the accumulator. -/
theorem C5_clapback_pop_witness :
    execute initInterp "clapback" [] = .error "Stack is empty" ∧
    execute { initInterp with stack := [5] } "clapback" [] =
      .ok { initInterp with acc := 5, stack := [] } :=
  ⟨(C5_clapback_pop initInterp).1 rfl,
   (C5_clapback_pop { initInterp with stack := [5] }).2 5 rfl⟩

/-- Claim C6: a loop entered by vibe with accumulator k, positive, whose body
is the single decrement gyatt, fetches that body exactly k times and finishes
with accumulator 0 (first conjunct, on the instrumented runTrace); and the
concrete program lit, vibe, gyatt, unvibe, skibidi prints exactly 0 (second
conjunct). -/
theorem C6_loop_runs_k_times (k : Nat) (hk : 0 < k) :
    (∃ tr, runTrace (2 * k + 2) (loopEntry k) = some (.ok (loopDone, tr)) ∧
      tr.count 1 = k) ∧
    (run 30 c6S).map (Except.map State.output) = some (.ok ["0"]) := by
  constructor
  · have hpos : (loopEntry k).acc > 0 := by
      show (0 : Int) < (k : Int)
      exact_mod_cast hk
    have hexv : execute (loopEntry k) "vibe" [] =
        .ok { loopEntry k with loop_stack := [0] } := by
      simp only [execute]
      rw [if_pos hpos]
      rfl
    have hstep := runTrace_step_adv (2 * k + 1) (loopEntry k)
      { loopEntry k with loop_stack := [0] } 1 "vibe" [] rfl hexv rfl
    obtain ⟨tr, htr, hc⟩ := loop_iter k hk (k : Int) rfl
    have htr' : runTrace (2 * k + 1)
        ({ { loopEntry k with loop_stack := [0] } with pc := (loopEntry k).pc + 1 }) =
        some (.ok (loopDone, tr)) := htr
    have h2k : 2 * k + 2 = 2 * k + 1 + 1 := by ring
    refine ⟨0 :: tr, ?_, ?_⟩
    · rw [h2k, hstep, htr']
      rfl
    · simp [List.count_cons, hc]
  · rfl

/-- Witness for C6 at k = 2. -/
theorem C6_loop_runs_k_times_witness :
    0 < 2 ∧
    ((∃ tr, runTrace (2 * 2 + 2) (loopEntry 2) = some (.ok (loopDone, tr)) ∧
      tr.count 1 = 2) ∧
    (run 30 c6S).map (Except.map State.output) = some (.ok ["0"])) :=
  ⟨by decide, C6_loop_runs_k_times 2 (by decide)⟩

/-- Claim C7: with accumulator 0, sus adds 2 to the pc (and changes nothing
else), so the following instruction is skipped; with nonzero accumulator the
pc advances by the normal increment; and when sus sits two slots before the
end of the program, the skip moves pc to the length of the program and the
fetch loop terminates normally with an ok result. -/
theorem C7_sus_skip (s : State) (f ln : Nat) (args : List String)
    (hline : s.lines[s.pc]? = some (ln, "sus" :: args)) :
    (s.acc = 0 → execute s "sus" args = .ok { s with pc := s.pc + 2 } ∧
      run (f + 1) s = run f { s with pc := s.pc + 2 }) ∧
    (s.acc ≠ 0 → run (f + 1) s = run f { s with pc := s.pc + 1 }) ∧
    (s.acc = 0 → s.pc + 2 = s.lines.length →
      run (f + 2) s = some (.ok { s with pc := s.pc + 2 })) := by
  have hex0 : s.acc = 0 → execute s "sus" args = .ok { s with pc := s.pc + 2 } := by
    intro h; simp [execute, h]
  have hexn : s.acc ≠ 0 → execute s "sus" args = .ok s := by
    intro h; simp [execute, h]
  refine ⟨fun h => ⟨hex0 h, ?_⟩, fun h => ?_, fun h hend => ?_⟩
  · exact run_step_moved f s _ ln "sus" args hline (hex0 h) (by show s.pc + 2 ≠ s.pc; omega)
  · exact run_step_adv f s s ln "sus" args hline (hexn h) rfl
  · calc run (f + 2) s
        = run (f + 1) { s with pc := s.pc + 2 } :=
          run_step_moved (f + 1) s _ ln "sus" args hline (hex0 h)
            (by show s.pc + 2 ≠ s.pc; omega)
      _ = some (.ok { s with pc := s.pc + 2 }) :=
          run_done f _ (List.getElem?_eq_none (le_of_eq hend.symm))

/-- Witness for C7 on the program sus, rizz with accumulator 0: the skip
jumps past the end and the run terminates normally. -/
theorem C7_sus_skip_witness :
    (execute c7S "sus" [] = .ok { c7S with pc := c7S.pc + 2 } ∧
      run (0 + 1) c7S = run 0 { c7S with pc := c7S.pc + 2 }) ∧
    run (0 + 2) c7S = some (.ok { c7S with pc := c7S.pc + 2 }) :=
  ⟨(C7_sus_skip c7S 0 1 [] rfl).1 rfl, (C7_sus_skip c7S 0 1 [] rfl).2.2 rfl rfl⟩

/-- Claim C8: starting from an empty stack, pushing the values of vs with fam
and then popping vs.length times with clapback returns exactly the reverse of
vs, ends with an empty stack, and one further pop raises the Stack-Empty
error (the error is raised before any state change in the source, so the
machine state is untouched by the failing pop). -/
theorem C8_stack_lifo (vs : List Int) (s : State) (h : s.stack = []) :
    ∃ t, popList vs.length (pushAll s vs) = .ok (t, vs.reverse) ∧
      t.stack = [] ∧ execute t "clapback" [] = .error "Stack is empty" := by
  have hstack : (pushAll s vs).stack = vs := by rw [pushAll_spec]; simp [h]
  refine ⟨{ pushAll s vs with acc := vs.headD (pushAll s vs).acc, stack := [] },
    popList_spec vs _ hstack, rfl, ?_⟩
  simp [execute]

/-- Witness for C8 with the pushes 1, 2, 3: the pops return 3, 2, 1. -/
theorem C8_stack_lifo_witness :
    initInterp.stack = [] ∧
    ∃ t, popList 3 (pushAll initInterp [1, 2, 3]) = .ok (t, [3, 2, 1]) ∧
      t.stack = [] ∧ execute t "clapback" [] = .error "Stack is empty" :=
  ⟨rfl, C8_stack_lifo [1, 2, 3] initInterp rfl⟩

/-- Claim C9: for every state and name, set x then get x returns the original
accumulator; and get of a name that is unbound raises the Unknown variable
error. -/
theorem C9_set_get_roundtrip (s : State) (x : String) :
    ((execute s "set" [x]).bind (fun t => (execute t "get" [x]).map State.acc)) =
      .ok s.acc ∧
    ∀ y, s.vars y = none →
      execute s "get" [y] = .error ("Unknown variable \x27" ++ y ++ "\x27") := by
  constructor
  · simp [execute, Except.bind, Except.map]
  · intro y hy; simp [execute, hy]

/-- Witness for C9 on the fresh interpreter and the names x and y. -/
theorem C9_set_get_roundtrip_witness :
    ((execute initInterp "set" ["x"]).bind
      (fun t => (execute t "get" ["x"]).map State.acc)) = .ok initInterp.acc ∧
    execute initInterp "get" ["y"] = .error ("Unknown variable \x27" ++ "y" ++ "\x27") :=
  ⟨(C9_set_get_roundtrip initInterp "x").1, (C9_set_get_roundtrip initInterp "x").2 "y" rfl⟩

/-- Claim C10: for every mnemonic other than set, get, load and the compound
form of no, the arguments are ignored: executing with any argument list gives
exactly the same result (state, pc and output included) as executing with no
arguments. -/
theorem C10_args_ignored (cmd : String) (args : List String) (s : State)
    (hset : cmd ≠ "set") (hget : cmd ≠ "get") (hload : cmd ≠ "load") (hno : cmd ≠ "no") :
    execute s cmd args = execute s cmd [] := by
  by_cases hrizz : cmd = "rizz"; · subst hrizz; rfl
  by_cases hgyatt : cmd = "gyatt"; · subst hgyatt; rfl
  by_cases hdrip : cmd = "drip"; · subst hdrip; rfl
  by_cases hnpc : cmd = "npc"; · subst hnpc; rfl
  by_cases hlit : cmd = "lit"; · subst hlit; rfl
  by_cases hslaps : cmd = "slaps"; · subst hslaps; rfl
  by_cases hyeet : cmd = "yeet"; · subst hyeet; rfl
  by_cases hflex : cmd = "flex"; · subst hflex; rfl
  by_cases hcringe : cmd = "cringe"; · subst hcringe; rfl
  by_cases hfam : cmd = "fam"; · subst hfam; rfl
  by_cases hclap : cmd = "clapback"; · subst hclap; rfl
  by_cases hspill : cmd = "spill"; · subst hspill; rfl
  by_cases hskib : cmd = "skibidi"; · subst hskib; rfl
  by_cases hsus : cmd = "sus"; · subst hsus; rfl
  by_cases hsuspect : cmd = "suspect"; · subst hsuspect; rfl
  by_cases hvibe : cmd = "vibe"; · subst hvibe; rfl
  by_cases hunvibe : cmd = "unvibe"; · subst hunvibe; rfl
  by_cases hhelp : cmd = "help"; · subst hhelp; rfl
  by_cases hversion : cmd = "version"; · subst hversion; rfl
  by_cases hmid : cmd = "mid"; · subst hmid; rfl
  rw [execute_unknown s cmd args hrizz hgyatt hdrip hnpc hlit hslaps hyeet hflex hcringe
        hfam hclap hset hget hspill hskib hno hsus hsuspect hvibe hunvibe hload hhelp
        hversion hmid,
      execute_unknown s cmd [] hrizz hgyatt hdrip hnpc hlit hslaps hyeet hflex hcringe
        hfam hclap hset hget hspill hskib hno hsus hsuspect hvibe hunvibe hload hhelp
        hversion hmid]

/-- Witness for C10: rizz with junk arguments equals rizz without. -/
theorem C10_args_ignored_witness :
    execute initInterp "rizz" ["junk", "junk2"] = execute initInterp "rizz" [] :=
  C10_args_ignored "rizz" ["junk", "junk2"] initInterp
    (of_decide_eq_false rfl) (of_decide_eq_false rfl)
    (of_decide_eq_false rfl) (of_decide_eq_false rfl)

end Brainrot
